import Mathlib

/-!
Shallow embedding of `src/lib/helpers.js` (the brunch reporting/orchestration
helpers): the watchdog-guarded plugin invocation (`callPlugin` built on
`safePromise`), the compilation progress animator (`getCompilationProgress`),
and the compilation summary generator (`generateCompilationLog`).

JavaScript promises are modelled by their eventual outcome (resolved,
rejected, or pending); timers are modelled by the list of times at which they
fire before being cleared.  Machine details the helpers never inspect (the
exact shape of plugin data) are collapsed into a small `JSVal` type carrying
exactly what the helpers test: truthiness and identity.
-/

deriving instance DecidableEq for Except

namespace Brunch

/-- A JavaScript value, as far as the helpers inspect one: the helpers only
test truthiness (`if (error)`) and otherwise pass values through unchanged. -/
inductive JSVal where
  | null
  | undefined
  | num (n : Int)
  | str (s : String)
  | bool (b : Bool)
deriving DecidableEq, Repr

/-- JavaScript truthiness for the modelled values: `null`, `undefined`, `0`,
`""` and `false` are falsy, everything else is truthy. -/
def truthy : JSVal → Bool
  | JSVal.null => false
  | JSVal.undefined => false
  | JSVal.num n => decide (n ≠ 0)
  | JSVal.str s => decide (s ≠ "")
  | JSVal.bool b => b

/-- A file handed to a plugin invocation: `{path, data}` (the optional
`error` field plays no role in `callPlugin`). -/
structure File where
  path : String
  data : JSVal
deriving DecidableEq, Repr

/-- The eventual outcome of a JavaScript promise: settled resolved, settled
rejected, or forever pending (never settled). -/
inductive Outcome where
  | resolved (v : JSVal)
  | rejected (e : JSVal)
  | pending
deriving DecidableEq, Repr

/-- A value returned by a hook, as classified by `isPromise` in the source:
either an awaitable (carrying its eventual outcome) or a plain value. -/
inductive RetVal where
  | promise (o : Outcome)
  | value (v : JSVal)
deriving DecidableEq, Repr

/-- What `fn.apply(plugin, args)` does: return a value normally, or throw
synchronously. -/
inductive HookResult where
  | returns (r : RetVal)
  | throws (e : JSVal)
deriving DecidableEq, Repr

/-- The observable behaviour of one hook invocation: the sequence of
`(error, data)` invocations it performs on the completion callback pushed
into its argument list, and its own synchronous result. -/
structure HookBehavior where
  cbCalls : List (JSVal × JSVal)
  result : HookResult
deriving DecidableEq, Repr

/-- An argument placed into `args` by `callPlugin`. -/
inductive JSArg where
  | file (f : File)
  | data (v : JSVal)
  | path (p : String)
  | callback
deriving DecidableEq, Repr

/-- A plugin as `callPlugin` sees it: a constructor name (used in the
timeout message), the declared parameter count (`fn.length`) of its hook,
and the hook behaviour as a function of the argument list it is
applied to. -/
structure Plugin where
  name : String
  hookArity : Nat
  hookRun : List JSArg → HookBehavior

/-- JS `Array.prototype.includes` under the structural equality of the model
(JS compares object references; the model identifies structurally equal
snapshots). -/
def includes {α : Type} [DecidableEq α] (l : List α) (x : α) : Bool :=
  decide (x ∈ l)

/-- Outcome of the promise built by the executor inside `callPlugin`, whose pushed
callback runs `if (error) reject(error); else resolve(data);`.  JavaScript
promises settle at most once, so only the first callback invocation can
settle it; with no invocation it stays pending. -/
def settleOutcome : List (JSVal × JSVal) → Outcome
  | [] => Outcome.pending
  | (error, data) :: _ =>
    if truthy error then Outcome.rejected error else Outcome.resolved data

/-- The fulfillment handler installed by `safePromise`:
`value => { clearInterval(warn); return value; }`.  First component counts
`clearInterval` calls, second is the result of the handler itself. -/
def onFulfilled (value : JSVal) : Nat × Except JSVal JSVal :=
  (1, Except.ok value)

/-- The rejection handler installed by `safePromise`:
`reason => { clearInterval(warn); throw reason; }`. -/
def onRejected (reason : JSVal) : Nat × Except JSVal JSVal :=
  (1, Except.error reason)

/-- Times at which `setInterval(fn, intervalTime)` fires, given that
`clearInterval` runs at time `clearedAt`: every positive multiple of the
interval strictly before the clearing time.  (The range bound `clearedAt`
covers every such multiple whenever the interval is at least 1 ms, which
the browser/node timer clamp guarantees.) -/
def intervalFires (intervalTime clearedAt : Nat) : List Nat :=
  ((List.range clearedAt).map (fun k => (k + 1) * intervalTime)).filter
    (fun t => decide (t < clearedAt))

/-- The observable trace of one `safePromise` wrapping: the forwarded
result, the times the warning fired, the warning text, and how many times
the interval timer was cleared. -/
structure GuardTrace where
  result : Except JSVal JSVal
  warnTimes : List Nat
  warnMessage : String
  clearCount : Nat
deriving Repr

/-- Model of `safePromise(promise, intervalTime, timeoutMessage)` for an operation
that settles with `outcome` at time `settleTime`: the warning interval runs
until the settlement handler clears it, and the handlers forward the
settlement. -/
def safePromise (outcome : Except JSVal JSVal) (settleTime intervalTime : Nat)
    (timeoutMessage : String) : GuardTrace :=
  let handled :=
    match outcome with
    | Except.ok v => onFulfilled v
    | Except.error r => onRejected r
  { result := handled.2
    warnTimes := intervalFires intervalTime settleTime
    warnMessage := timeoutMessage
    clearCount := handled.1 }

/-- Outcome-level semantics of `promise.then(onFulfilled, onRejected)` with
the handlers of `safePromise`, including the case where the wrapped operation
never settles (the handlers then never run). -/
def thenForward : Outcome → Outcome
  | Outcome.resolved v =>
    match (onFulfilled v).2 with
    | Except.ok w => Outcome.resolved w
    | Except.error e => Outcome.rejected e
  | Outcome.rejected r =>
    match (onRejected r).2 with
    | Except.ok w => Outcome.resolved w
    | Except.error e => Outcome.rejected e
  | Outcome.pending => Outcome.pending

/-- The `args` list as `callPlugin` builds it: `[file]` when `fn.length === 1`, else
`[file.data, file.path]`; the promise executor then pushes the completion
callback in both cases. -/
def callPluginArgs (plugin : Plugin) (file : File) : List JSArg :=
  (if plugin.hookArity = 1 then [JSArg.file file]
   else [JSArg.data file.data, JSArg.path file.path]) ++ [JSArg.callback]

/-- The warning interval used by `callPlugin`. -/
def warningLogInterval : Nat := 15000

/-- The watchdog message `callPlugin` passes to `safePromise`. -/
def pluginTimeoutMessage (plugin : Plugin) (method : String) (file : File) :
    String :=
  plugin.name ++ " is taking too long to " ++ method ++ " @ " ++ file.path

/-- Model of `callPlugin(plugin, method, file)`.  `Except.error e` models a
synchronous exception escaping `callPlugin` itself (thrown by
`fn.apply`); `Except.ok o` models the returned awaitable with eventual
outcome `o`.  The operation handed to `safePromise` is the hook return
value when that value is an awaitable, and otherwise the executor promise
driven by the completion callback. -/
def callPlugin (plugin : Plugin) (method : String) (file : File) :
    Except JSVal Outcome :=
  let args := callPluginArgs plugin file
  let behavior := plugin.hookRun args
  let promise := settleOutcome behavior.cbCalls
  match behavior.result with
  | HookResult.throws e => Except.error e
  | HookResult.returns r =>
    let operation :=
      match r with
      | RetVal.promise o => o
      | RetVal.value _ => promise
    Except.ok (thenForward operation)

/-- The animator tick interval (`animationLogInterval`). -/
def animationLogInterval : Nat := 4000

/-- The line logged by `writeWithDots` when the closure counter `iterations`
counter equals `i` (the counter starts at 0 and is incremented after each
log, so tick index `i` logs with `iterations = i`):
`(iterations === 7 ? still compiling : compiling) + dots.slice(0, iterations % 4)`. -/
def writeWithDotsLine (iterations : Nat) : String :=
  let msg := if iterations = 7 then "still compiling" else "compiling"
  msg ++ "...".take (iterations % 4)

/-- An asset: a static file copied into the output, with the time of its
last copy. -/
structure Asset where
  path : String
  copyTime : Int
deriving DecidableEq, Repr

/-- A source file with the time of its last compilation. -/
structure SourceFile where
  path : String
  compilationTime : Int
deriving DecidableEq, Repr

/-- A generated file: an output bundle and the ordered source files that
feed it. -/
structure GeneratedFile where
  path : String
  sourceFiles : List SourceFile
deriving DecidableEq, Repr

/-- The `disposedFiles` argument: bundles and source paths removed this
pass. -/
structure DisposedFiles where
  generated : List GeneratedFile
  sourcePaths : List String
deriving DecidableEq, Repr

/-- One iteration of the inner `generatedFile.sourceFiles.forEach` loop of
`generateCompilationLog`, acting on the mutable state
`(isChanged, locallyCompiledCount, compiled)`.  `inDisposed` is the (loop
invariant) value of `dgen.includes(generatedFile)`.  Note the disposal
check runs inside this per-source-file loop. -/
def processSource (basename : String → String) (startTime : Int)
    (inDisposed : Bool) (st : Bool × Nat × List String)
    (sourceFile : SourceFile) : Bool × Nat × List String :=
  let step :=
    if startTime ≤ sourceFile.compilationTime then
      let sourceName := basename sourceFile.path
      (true, st.2.1 + 1,
        if includes st.2.2 sourceName then st.2.2 else st.2.2 ++ [sourceName])
    else st
  if !step.1 && inDisposed then (true, step.2.1, step.2.2) else step

/-- The full inner loop over the source files of one generated file, threading
the running `compiled` list and starting from
`isChanged = false, locallyCompiledCount = 0`. -/
def processGeneratedFile (basename : String → String) (startTime : Int)
    (inDisposed : Bool) (compiled0 : List String)
    (sourceFiles : List SourceFile) : Bool × Nat × List String :=
  sourceFiles.foldl (processSource basename startTime inDisposed)
    (false, 0, compiled0)

/-- One iteration of the outer `generatedFiles.forEach` loop, acting on the
accumulated `(generated, compiled, cachedCount)`. -/
def classifyStep (basename : String → String) (startTime : Int)
    (dgen : List GeneratedFile) (acc : List String × List String × Nat)
    (generatedFile : GeneratedFile) : List String × List String × Nat :=
  let res := processGeneratedFile basename startTime
    (includes dgen generatedFile) acc.2.1 generatedFile.sourceFiles
  if res.1 then
    (acc.1 ++ [basename generatedFile.path], res.2.2,
      acc.2.2 + (generatedFile.sourceFiles.length - res.2.1))
  else (acc.1, res.2.2, acc.2.2)

/-- The classification phase of `generateCompilationLog`: the `generated`
names, the deduplicated `compiled` names, and `cachedCount`. -/
def classify (basename : String → String) (startTime : Int)
    (generatedFiles : List GeneratedFile) (dgen : List GeneratedFile) :
    List String × List String × Nat :=
  generatedFiles.foldl (classifyStep basename startTime dgen) ([], [], 0)

/-- The `copied` list: base names of assets with `copyTime > startTime`
(strict), in input order. -/
def copiedNames (basename : String → String) (startTime : Int)
    (allAssets : List Asset) : List String :=
  (allAssets.filter (fun a => decide (startTime < a.copyTime))).map
    (fun a => basename a.path)

/-- The `generatedLog` fragment (template-printing a one-element JS array
prints its single element). -/
def generatedLog (generated : List String) : String :=
  match generated with
  | [] => ""
  | [name] => " into " ++ name
  | _ => " into " ++ toString generated.length ++ " files"

/-- The `compiledLog` fragment. -/
def compiledLog (compiled disposed : List String) : String :=
  match compiled with
  | [] =>
    match disposed with
    | [] => ""
    | [p] => "removed " ++ p
    | _ => "removed " ++ toString disposed.length
  | [name] => "compiled " ++ name
  | _ => "compiled " ++ toString compiled.length

/-- The `cachedLog` fragment. -/
def cachedLog (compiled generated : List String) (cachedCount : Nat) :
    String :=
  if cachedCount = 0 then
    if compiled.length ≤ 1 then "" else " files"
  else
    match compiled with
    | [] =>
      let noun := if 1 < generated.length then "" else " files"
      " and wrote " ++ toString cachedCount ++ " cached" ++ noun
    | [_] =>
      let cachedCountName := if cachedCount = 1 then "file" else "files"
      " and " ++ toString cachedCount ++ " cached " ++ cachedCountName
    | _ => " files and " ++ toString cachedCount ++ " cached"

/-- The `assetsLog` fragment. -/
def assetsLog (copied compiled : List String) : String :=
  match copied with
  | [] => ""
  | [name] => "copied " ++ name
  | _ =>
    if compiled.length ≠ 0 then "copied " ++ toString copied.length
    else "copied " ++ toString copied.length ++ " files"

/-- The `main` string of `generateCompilationLog`:
`compiledLog + cachedLog + generatedLog`, then the separator and
`assetsLog`. -/
def summaryMain (basename : String → String) (startTime : Int)
    (allAssets : List Asset) (generatedFiles : List GeneratedFile)
    (disposedFiles : DisposedFiles) : String :=
  let copied := copiedNames basename startTime allAssets
  let res := classify basename startTime generatedFiles disposedFiles.generated
  let generated := res.1
  let compiled := res.2.1
  let cachedCount := res.2.2
  let nonAssetsLog :=
    compiledLog compiled disposedFiles.sourcePaths ++
    cachedLog compiled generated cachedCount ++ generatedLog generated
  let sep := if nonAssetsLog ≠ "" ∧ copied.length ≠ 0 then ", " else ""
  nonAssetsLog ++ sep ++ assetsLog copied compiled

/-- Model of `main` with its fallback to the literal `compiled` when empty:
everything of the output line before the
`" in {elapsed}"` suffix. -/
def summaryHead (basename : String → String) (startTime : Int)
    (allAssets : List Asset) (generatedFiles : List GeneratedFile)
    (disposedFiles : DisposedFiles) : String :=
  let main := summaryMain basename startTime allAssets generatedFiles
    disposedFiles
  if main = "" then "compiled" else main

/-- Model of `generateCompilationLog(startTime, allAssets, generatedFiles,
disposedFiles)`.  `basename` is the path helper from `lib/path` (external
to this file), `diffText` abstracts the `Date`-based rendering of the
elapsed time `now - startTime` (`"x.y sec"` or `"n ms"`), and `now` is the
value of `Date.now()` at the call. -/
def generateCompilationLog (basename : String → String)
    (diffText : Int → String) (now startTime : Int) (allAssets : List Asset)
    (generatedFiles : List GeneratedFile) (disposedFiles : DisposedFiles) :
    String :=
  summaryHead basename startTime allAssets generatedFiles disposedFiles ++
    " in " ++ diffText (now - startTime)

/-- A sample file for the concrete plugin scenarios. -/
def file0 : File := { path := "a.coffee", data := JSVal.str "src" }

/-- A direct-style hook (declared arity 1) that returns the plain value
`42` and never invokes the completion callback. -/
def directValuePlugin : Plugin :=
  { name := "CoffeePlugin"
    hookArity := 1
    hookRun := fun _ =>
      { cbCalls := []
        result := HookResult.returns (RetVal.value (JSVal.num 42)) } }

/-- A hook that throws `"boom"` synchronously. -/
def throwPlugin : Plugin :=
  { name := "ThrowPlugin"
    hookArity := 2
    hookRun := fun _ =>
      { cbCalls := []
        result := HookResult.throws (JSVal.str "boom") } }

/-- A direct-style hook returning an awaitable that rejects with
`"bad"`. -/
def rejectPlugin : Plugin :=
  { name := "RejectPlugin"
    hookArity := 1
    hookRun := fun _ =>
      { cbCalls := []
        result := HookResult.returns
          (RetVal.promise (Outcome.rejected (JSVal.str "bad"))) } }

/-- A callback-style hook that invokes the completion callback with the
truthy error `"cberr"`. -/
def cbErrPlugin : Plugin :=
  { name := "CbErrPlugin"
    hookArity := 3
    hookRun := fun _ =>
      { cbCalls := [(JSVal.str "cberr", JSVal.undefined)]
        result := HookResult.returns (RetVal.value JSVal.undefined) } }

/-- A callback-style hook that invokes the completion callback with the
error value `0`, which is non-null but falsy. -/
def zeroErrPlugin : Plugin :=
  { name := "ZeroErrPlugin"
    hookArity := 3
    hookRun := fun _ =>
      { cbCalls := [(JSVal.num 0, JSVal.str "ok")]
        result := HookResult.returns (RetVal.value JSVal.undefined) } }

/-- The scenario of claim C5: 4 source files (distinct base names)
compiled this pass and 145 untouched ones, all feeding one bundle. -/
def c5Sources : List SourceFile :=
  ((List.range 4).map
    (fun i => { path := "s" ++ toString i ++ ".coffee", compilationTime := 100 })) ++
  ((List.range 145).map
    (fun i => { path := "c" ++ toString i ++ ".coffee", compilationTime := 0 }))

/-- The single bundle of the C5 scenario. -/
def c5Bundle : GeneratedFile := { path := "app.js", sourceFiles := c5Sources }

/-- The empty `disposedFiles` value: nothing removed this pass. -/
def noDisposed : DisposedFiles := { generated := [], sourcePaths := [] }

/-- A generated file with an empty source list, for the disposal edge case
of claim C1. -/
def emptyBundle : GeneratedFile := { path := "app.js", sourceFiles := [] }

/-- The safePromise handlers forward any outcome unchanged. -/
theorem thenForward_id (o : Outcome) : thenForward o = o := by
  cases o <;> rfl

/-- For `n < 4`, `slice(0, n)` of the three-dot string is `n` dots. -/
theorem take_dots (n : Nat) (h : n < 4) :
    "...".take n = String.mk (List.replicate n '.') := by
  interval_cases n <;> rfl

/-- Claim C4 (corrected): the message text is `still compiling` exactly at
tick index 7 (`iterations === 7`) and `compiling` at every other tick
index — the switch is NOT permanent, it lasts one tick — with
`tick index mod 4` dots appended in either phase. -/
theorem c4_theorem (i : Nat) :
    writeWithDotsLine i =
      (if i = 7 then "still compiling" else "compiling") ++
        String.mk (List.replicate (i % 4) '.') := by
  have h4 : i % 4 < 4 := Nat.mod_lt i (by norm_num)
  unfold writeWithDotsLine
  rw [take_dots (i % 4) h4]

/-- Claim C4 as stated is false: at tick index 8 the code emits
`compiling` (the claim predicts `still compiling` with zero dots). -/
theorem c4_counterexample :
    writeWithDotsLine 8 = "compiling" ∧
    writeWithDotsLine 8 ≠ "still compiling" := by
  decide

/-- Claim C7 (confirmed): the watchdog wrapper forwards the settled
outcome of the guarded operation unchanged (same value on fulfillment,
same reason on rejection), clears the warning interval exactly once, and
every warning fires strictly before the settlement time. -/
theorem c7_theorem (outcome : Except JSVal JSVal)
    (settleTime intervalTime : Nat) (msg : String) :
    (safePromise outcome settleTime intervalTime msg).result = outcome ∧
    (safePromise outcome settleTime intervalTime msg).clearCount = 1 ∧
    ∀ t ∈ (safePromise outcome settleTime intervalTime msg).warnTimes,
      t < settleTime := by
  refine ⟨?_, ?_, ?_⟩
  · cases outcome <;> rfl
  · cases outcome <;> rfl
  · intro t ht
    have hmem : t ∈ intervalFires intervalTime settleTime := by
      cases outcome <;> exact ht
    simp only [intervalFires, List.mem_filter] at hmem
    exact of_decide_eq_true hmem.2

/-- Witness for C7 at a concrete guarded operation: settles resolved at
time 10 with interval 3; the result and clear count are forwarded, and the
warning at time 3 indeed fired before settlement. -/
theorem c7_witness :
    (safePromise (Except.ok (JSVal.num 7)) 10 3 "slow").result =
      Except.ok (JSVal.num 7) ∧
    (safePromise (Except.ok (JSVal.num 7)) 10 3 "slow").clearCount = 1 ∧
    (3 : Nat) < 10 :=
  ⟨(c7_theorem (Except.ok (JSVal.num 7)) 10 3 "slow").1,
   (c7_theorem (Except.ok (JSVal.num 7)) 10 3 "slow").2.1,
   (c7_theorem (Except.ok (JSVal.num 7)) 10 3 "slow").2.2 3 (by decide)⟩

/-- Claim C10 (confirmed): the executor promise settles on the first
completion-callback invocation (to a resolved or rejected outcome), and
any later invocations — appended calls or the tail of the call list — do
not change the outcome: it is determined by the first call alone. -/
theorem c10_theorem (first : JSVal × JSVal)
    (earlier later : List (JSVal × JSVal)) :
    settleOutcome ((first :: earlier) ++ later) = settleOutcome [first] ∧
    settleOutcome (first :: earlier) = settleOutcome [first] ∧
    ((∃ v, settleOutcome [first] = Outcome.resolved v) ∨
      (∃ e, settleOutcome [first] = Outcome.rejected e)) := by
  obtain ⟨e, d⟩ := first
  refine ⟨rfl, rfl, ?_⟩
  by_cases h : truthy e = true
  · exact Or.inr ⟨e, by simp [settleOutcome, h]⟩
  · exact Or.inl ⟨d, by simp [settleOutcome, h]⟩

/-- Claim C2 (corrected): for a direct-style plugin (declared parameter
count 1) whose hook returns a non-awaitable, the returned value is
discarded — the resulting operation is the executor promise driven by the
completion callback, so it settles only as that callback dictates and in
particular stays pending forever when the callback is never invoked. -/
theorem c2_theorem (plugin : Plugin) (method : String) (file : File)
    (v : JSVal) (harity : plugin.hookArity = 1)
    (hres : (plugin.hookRun (callPluginArgs plugin file)).result =
      HookResult.returns (RetVal.value v)) :
    callPlugin plugin method file =
      Except.ok (settleOutcome
        (plugin.hookRun (callPluginArgs plugin file)).cbCalls) ∧
    ((plugin.hookRun (callPluginArgs plugin file)).cbCalls = [] →
      callPlugin plugin method file = Except.ok Outcome.pending) := by
  constructor
  · simp [callPlugin, hres, thenForward_id]
  · intro hcb
    simp [callPlugin, hres, hcb, settleOutcome, thenForward_id]

/-- Witness for C2 at the concrete direct-style plugin returning `42`. -/
theorem c2_witness :
    callPlugin directValuePlugin "compile" file0 =
      Except.ok (settleOutcome
        (directValuePlugin.hookRun
          (callPluginArgs directValuePlugin file0)).cbCalls) ∧
    callPlugin directValuePlugin "compile" file0 = Except.ok Outcome.pending :=
  ⟨(c2_theorem directValuePlugin "compile" file0 (JSVal.num 42) rfl rfl).1,
   (c2_theorem directValuePlugin "compile" file0 (JSVal.num 42) rfl rfl).2 rfl⟩

/-- Claim C2 as stated is false: the direct-style hook returning the plain
value `42` yields an operation that is forever pending, not one resolved
with `42`. -/
theorem c2_counterexample :
    callPlugin directValuePlugin "compile" file0 = Except.ok Outcome.pending ∧
    callPlugin directValuePlugin "compile" file0 ≠
      Except.ok (Outcome.resolved (JSVal.num 42)) := by
  decide

/-- Claim C3 (corrected): a synchronous throw during invocation propagates
as a synchronous exception out of `callPlugin` carrying the original error
(it is NOT converted into a rejection of the returned awaitable); a
rejected awaitable and a completion callback invoked with a truthy error
do surface as rejections carrying the original error unchanged. -/
theorem c3_theorem (plugin : Plugin) (method : String) (file : File)
    (e : JSVal) :
    ((plugin.hookRun (callPluginArgs plugin file)).result =
        HookResult.throws e →
      callPlugin plugin method file = Except.error e) ∧
    ((plugin.hookRun (callPluginArgs plugin file)).result =
        HookResult.returns (RetVal.promise (Outcome.rejected e)) →
      callPlugin plugin method file = Except.ok (Outcome.rejected e)) ∧
    (∀ v d rest, truthy e = true →
      (plugin.hookRun (callPluginArgs plugin file)).result =
        HookResult.returns (RetVal.value v) →
      (plugin.hookRun (callPluginArgs plugin file)).cbCalls = (e, d) :: rest →
      callPlugin plugin method file = Except.ok (Outcome.rejected e)) := by
  refine ⟨?_, ?_, ?_⟩
  · intro h
    simp [callPlugin, h]
  · intro h
    simp [callPlugin, h, thenForward_id]
  · intro v d rest ht hres hcb
    simp [callPlugin, hres, hcb, settleOutcome, ht, thenForward_id]

/-- Witness for C3: the three failure modes at concrete plugins — the
synchronous throw escapes as an exception, the rejected awaitable and the
callback error surface as rejections with the original error. -/
theorem c3_witness :
    callPlugin throwPlugin "compile" file0 = Except.error (JSVal.str "boom") ∧
    callPlugin rejectPlugin "compile" file0 =
      Except.ok (Outcome.rejected (JSVal.str "bad")) ∧
    callPlugin cbErrPlugin "compile" file0 =
      Except.ok (Outcome.rejected (JSVal.str "cberr")) :=
  ⟨(c3_theorem throwPlugin "compile" file0 (JSVal.str "boom")).1 rfl,
   (c3_theorem rejectPlugin "compile" file0 (JSVal.str "bad")).2.1 rfl,
   (c3_theorem cbErrPlugin "compile" file0 (JSVal.str "cberr")).2.2
     JSVal.undefined JSVal.undefined [] (by decide) rfl rfl⟩

/-- Claim C3 as stated is false: the synchronously throwing hook makes
`callPlugin` itself throw (a synchronous exception carrying `boom`), not
return an awaitable rejected with `boom`. -/
theorem c3_counterexample :
    callPlugin throwPlugin "compile" file0 = Except.error (JSVal.str "boom") ∧
    callPlugin throwPlugin "compile" file0 ≠
      Except.ok (Outcome.rejected (JSVal.str "boom")) := by
  decide

/-- Claim C6 (corrected): for a callback-style plugin (declared parameter
count other than 1, hook returning a non-awaitable) the built operation
rejects exactly when the first completion-callback invocation carries a
TRUTHY error; a non-null but falsy error such as `0` resolves (it does not
reject), as does a `null` error. -/
theorem c6_theorem (plugin : Plugin) (method : String) (file : File)
    (v e d : JSVal) (rest : List (JSVal × JSVal))
    (harity : plugin.hookArity ≠ 1)
    (hres : (plugin.hookRun (callPluginArgs plugin file)).result =
      HookResult.returns (RetVal.value v))
    (hcb : (plugin.hookRun (callPluginArgs plugin file)).cbCalls =
      (e, d) :: rest) :
    callPlugin plugin method file =
      Except.ok (if truthy e = true then Outcome.rejected e
                 else Outcome.resolved d) ∧
    (truthy e = false →
      callPlugin plugin method file = Except.ok (Outcome.resolved d)) ∧
    (e = JSVal.num 0 →
      callPlugin plugin method file = Except.ok (Outcome.resolved d)) ∧
    (e = JSVal.null →
      callPlugin plugin method file = Except.ok (Outcome.resolved d)) ∧
    (truthy e = true →
      callPlugin plugin method file = Except.ok (Outcome.rejected e)) := by
  have key : callPlugin plugin method file =
      Except.ok (if truthy e = true then Outcome.rejected e
                 else Outcome.resolved d) := by
    simp [callPlugin, hres, hcb, settleOutcome, thenForward_id]
  refine ⟨key, ?_, ?_, ?_, ?_⟩
  · intro h; rw [key, h]; rfl
  · intro h; subst h; rw [key]; rfl
  · intro h; subst h; rw [key]; rfl
  · intro h; rw [key, h]; rfl

/-- Witness for C6 at the concrete plugin whose callback reports the
falsy error `0`: the operation resolves with the data. -/
theorem c6_witness :
    callPlugin zeroErrPlugin "compile" file0 =
      Except.ok (Outcome.resolved (JSVal.str "ok")) :=
  (c6_theorem zeroErrPlugin "compile" file0 JSVal.undefined (JSVal.num 0)
    (JSVal.str "ok") [] (by decide) rfl rfl).2.2.1 rfl

/-- Claim C6 as stated is false: the callback invoked with the non-null
but falsy error `0` resolves the operation instead of rejecting it. -/
theorem c6_counterexample :
    callPlugin zeroErrPlugin "compile" file0 =
      Except.ok (Outcome.resolved (JSVal.str "ok")) ∧
    callPlugin zeroErrPlugin "compile" file0 ≠
      Except.ok (Outcome.rejected (JSVal.num 0)) := by
  decide

/-- One loop iteration: the changed flag after a source file is the old
flag, or the compiled-this-pass test, or the disposal test. -/
theorem processSource_changed (basename : String → String) (startTime : Int)
    (inDisposed : Bool) (st : Bool × Nat × List String) (sf : SourceFile) :
    (processSource basename startTime inDisposed st sf).1 =
      ((st.1 || decide (startTime ≤ sf.compilationTime)) || inDisposed) := by
  by_cases hp : startTime ≤ sf.compilationTime
  · simp [processSource, hp]
  · cases hb : st.1 <;> cases inDisposed <;> simp [processSource, hp, hb]

/-- One loop iteration: `locallyCompiledCount` increments exactly on the
compiled-this-pass test. -/
theorem processSource_count (basename : String → String) (startTime : Int)
    (inDisposed : Bool) (st : Bool × Nat × List String) (sf : SourceFile) :
    (processSource basename startTime inDisposed st sf).2.1 =
      if startTime ≤ sf.compilationTime then st.2.1 + 1 else st.2.1 := by
  by_cases hp : startTime ≤ sf.compilationTime
  · simp [processSource, hp]
  · simp only [processSource, hp, if_false]
    split <;> simp [hp]

/-- One loop iteration: the `compiled` list gains the base name (deduped)
exactly on the compiled-this-pass test. -/
theorem processSource_compiled (basename : String → String) (startTime : Int)
    (inDisposed : Bool) (st : Bool × Nat × List String) (sf : SourceFile) :
    (processSource basename startTime inDisposed st sf).2.2 =
      if startTime ≤ sf.compilationTime then
        (if includes st.2.2 (basename sf.path) then st.2.2
         else st.2.2 ++ [basename sf.path])
      else st.2.2 := by
  by_cases hp : startTime ≤ sf.compilationTime
  · simp [processSource, hp]
  · simp only [processSource, hp, if_false]
    split <;> simp [hp]

/-- The full inner loop from any starting state: the final changed flag. -/
theorem foldl_processSource_changed (basename : String → String)
    (startTime : Int) (inDisposed : Bool) (sourceFiles : List SourceFile)
    (st : Bool × Nat × List String) :
    (sourceFiles.foldl (processSource basename startTime inDisposed) st).1 =
      (st.1 ||
        sourceFiles.any (fun sf => decide (startTime ≤ sf.compilationTime)) ||
        (!sourceFiles.isEmpty && inDisposed)) := by
  induction sourceFiles generalizing st with
  | nil => simp
  | cons sf rest ih =>
    rw [List.foldl_cons, ih, processSource_changed]
    cases hb : st.1 <;> cases hd : inDisposed <;>
      cases hp : decide (startTime ≤ sf.compilationTime) <;>
      cases ha : rest.any (fun sf => decide (startTime ≤ sf.compilationTime)) <;>
      cases he : rest.isEmpty <;>
      simp [hb, hd, hp, ha, he]

/-- The full inner loop from any starting state: the final local count. -/
theorem foldl_processSource_count (basename : String → String)
    (startTime : Int) (inDisposed : Bool) (sourceFiles : List SourceFile)
    (st : Bool × Nat × List String) :
    (sourceFiles.foldl (processSource basename startTime inDisposed) st).2.1 =
      st.2.1 + (sourceFiles.filter
        (fun sf => decide (startTime ≤ sf.compilationTime))).length := by
  induction sourceFiles generalizing st with
  | nil => simp
  | cons sf rest ih =>
    rw [List.foldl_cons, ih, processSource_count]
    by_cases hp : startTime ≤ sf.compilationTime <;>
      simp [hp, List.filter_cons] <;> omega

/-- If no source file of the bundle compiled this pass, the inner loop
leaves the `compiled` list untouched. -/
theorem foldl_processSource_compiled_stale (basename : String → String)
    (startTime : Int) (inDisposed : Bool) (sourceFiles : List SourceFile)
    (st : Bool × Nat × List String)
    (h : sourceFiles.any
      (fun sf => decide (startTime ≤ sf.compilationTime)) = false) :
    (sourceFiles.foldl (processSource basename startTime inDisposed) st).2.2 =
      st.2.2 := by
  induction sourceFiles generalizing st with
  | nil => rfl
  | cons sf rest ih =>
    simp only [List.any_cons, Bool.or_eq_false_iff] at h
    rw [List.foldl_cons, ih _ h.2, processSource_compiled,
      if_neg (of_decide_eq_false h.1)]

/-- The changed flag of one generated file, phrased on
`processGeneratedFile`. -/
theorem processGeneratedFile_changed (basename : String → String)
    (startTime : Int) (inDisposed : Bool) (compiled0 : List String)
    (sourceFiles : List SourceFile) :
    (processGeneratedFile basename startTime inDisposed compiled0
        sourceFiles).1 =
      (sourceFiles.any (fun sf => decide (startTime ≤ sf.compilationTime)) ||
        (!sourceFiles.isEmpty && inDisposed)) := by
  have h := foldl_processSource_changed basename startTime inDisposed
    sourceFiles (false, 0, compiled0)
  simpa [processGeneratedFile] using h

/-- The local compiled count of one generated file, phrased on
`processGeneratedFile`. -/
theorem processGeneratedFile_count (basename : String → String)
    (startTime : Int) (inDisposed : Bool) (compiled0 : List String)
    (sourceFiles : List SourceFile) :
    (processGeneratedFile basename startTime inDisposed compiled0
        sourceFiles).2.1 =
      (sourceFiles.filter
        (fun sf => decide (startTime ≤ sf.compilationTime))).length := by
  have h := foldl_processSource_count basename startTime inDisposed
    sourceFiles (false, 0, compiled0)
  simpa [processGeneratedFile] using h

/-- An unchanged generated file leaves the `compiled` list untouched. -/
theorem processGeneratedFile_not_changed (basename : String → String)
    (startTime : Int) (inDisposed : Bool) (compiled0 : List String)
    (sourceFiles : List SourceFile)
    (h : (processGeneratedFile basename startTime inDisposed compiled0
      sourceFiles).1 = false) :
    (processGeneratedFile basename startTime inDisposed compiled0
        sourceFiles).2.2 = compiled0 := by
  rw [processGeneratedFile_changed] at h
  simp only [Bool.or_eq_false_iff] at h
  have h2 := foldl_processSource_compiled_stale basename startTime inDisposed
    sourceFiles (false, 0, compiled0) h.1
  simpa [processGeneratedFile] using h2

/-- Claim C1 (corrected): a generated file is classified as changed iff at
least one of its source files has `compilationTime ≥ startTime`, or it has
at least one source file AND is a member of `disposed.generated` — the
disposal test sits inside the per-source-file loop, so a generated file
with an empty `sourceFiles` list is never classified as changed, even when
it is listed in `disposed.generated`.  A changed generated file appends
its base name to `generated` and adds
`sourceFiles.length - locallyCompiledCount` to `cachedCount` (where
`locallyCompiledCount` counts its source files with
`compilationTime ≥ startTime`); an unchanged one leaves the accumulator
exactly as it was, contributing nothing to any counter. -/
theorem c1_theorem (basename : String → String) (startTime : Int)
    (dgen : List GeneratedFile) (gf : GeneratedFile)
    (acc : List String × List String × Nat) :
    ((processGeneratedFile basename startTime (includes dgen gf) acc.2.1
        gf.sourceFiles).1 = true ↔
      ((∃ sf ∈ gf.sourceFiles, startTime ≤ sf.compilationTime) ∨
        (gf.sourceFiles ≠ [] ∧ gf ∈ dgen))) ∧
    ((processGeneratedFile basename startTime (includes dgen gf) acc.2.1
        gf.sourceFiles).2.1 =
      (gf.sourceFiles.filter
        (fun sf => decide (startTime ≤ sf.compilationTime))).length) ∧
    ((processGeneratedFile basename startTime (includes dgen gf) acc.2.1
        gf.sourceFiles).1 = false →
      classifyStep basename startTime dgen acc gf = acc) ∧
    ((processGeneratedFile basename startTime (includes dgen gf) acc.2.1
        gf.sourceFiles).1 = true →
      classifyStep basename startTime dgen acc gf =
        (acc.1 ++ [basename gf.path],
          (processGeneratedFile basename startTime (includes dgen gf) acc.2.1
            gf.sourceFiles).2.2,
          acc.2.2 + (gf.sourceFiles.length -
            (gf.sourceFiles.filter
              (fun sf => decide (startTime ≤ sf.compilationTime))).length))) := by
  refine ⟨?_, processGeneratedFile_count _ _ _ _ _, ?_, ?_⟩
  · rw [processGeneratedFile_changed]
    cases hs : gf.sourceFiles with
    | nil => simp
    | cons a l => simp [includes, List.any_eq_true]
  · intro h
    have hc := processGeneratedFile_not_changed basename startTime
      (includes dgen gf) acc.2.1 gf.sourceFiles h
    simp [classifyStep, h, hc]
  · intro h
    simp [classifyStep, h, processGeneratedFile_count]

/-- Witness for C1: a bundle with one freshly compiled source file is
changed and contributes its base name and `1 - 1 = 0` cached files. -/
theorem c1_witness :
    classifyStep (fun s => s) 0 []
      (([] : List String), ([] : List String), (0 : Nat))
      { path := "app.js",
        sourceFiles := [{ path := "x.coffee", compilationTime := 5 }] } =
      (["app.js"], ["x.coffee"], 0) :=
  (c1_theorem (fun s => s) 0 []
    { path := "app.js",
      sourceFiles := [{ path := "x.coffee", compilationTime := 5 }] }
    (([] : List String), ([] : List String), (0 : Nat))).2.2.2 (by decide)

/-- Claim C1 as stated is false at a generated file with an empty
`sourceFiles` list that is itself listed in `disposed.generated`: the
claim classifies it as changed, the code does not. -/
theorem c1_counterexample :
    ¬ ((processGeneratedFile (fun s => s) 0
        (includes [emptyBundle] emptyBundle) [] emptyBundle.sourceFiles).1 =
          true ↔
      ((∃ sf ∈ emptyBundle.sourceFiles, (0 : Int) ≤ sf.compilationTime) ∨
        emptyBundle ∈ [emptyBundle])) := by
  decide

set_option maxRecDepth 40000 in
/-- Claim C5 (corrected): for one bundle fed by 4 source files (distinct
base names) with `compilationTime ≥ startTime` plus 145 with
`compilationTime < startTime`, no assets copied and no removals, the
output before the elapsed-time suffix is
`compiled 4 files and 145 cached into app.js` — the `compiledLog` fragment
for more than one compiled file is `compiled {N}` and the `cachedLog`
fragment then contributes ` files and {cachedCount} cached`, so the word
`files` follows the 4, not the claimed bare `compiled 4 and ...`. -/
theorem c5_theorem (diffText : Int → String) (now : Int) :
    generateCompilationLog (fun s => s) diffText now 50 [] [c5Bundle]
      noDisposed =
      "compiled 4 files and 145 cached into app.js" ++ " in " ++
        diffText (now - 50) := by
  have h : summaryHead (fun s => s) 50 [] [c5Bundle] noDisposed =
      "compiled 4 files and 145 cached into app.js" := by decide
  show summaryHead (fun s => s) 50 [] [c5Bundle] noDisposed ++ " in " ++
    diffText (now - 50) = _
  rw [h]

set_option maxRecDepth 40000 in
/-- Claim C5 as stated is false: on that exact input the text before the
elapsed-time suffix is not `compiled 4 and 145 cached into app.js`. -/
theorem c5_counterexample :
    summaryHead (fun s => s) 50 [] [c5Bundle] noDisposed ≠
      "compiled 4 and 145 cached into app.js" := by
  decide

/-- Claim C8 (confirmed): an asset contributes to `copied` iff
`copyTime > startTime` (strict), while a source file counts as compiled
iff `compilationTime ≥ startTime` (non-strict); at the boundary, an asset
with `copyTime = startTime` is not copied while a source file with
`compilationTime = startTime` is counted (and marks its bundle
changed). -/
theorem c8_theorem (basename : String → String) (startTime : Int)
    (inDisposed : Bool) (compiled0 : List String) (a b : Asset)
    (sf s : SourceFile) (ha : a.copyTime = startTime)
    (hsf : sf.compilationTime = startTime) :
    (copiedNames basename startTime [b] =
      if startTime < b.copyTime then [basename b.path] else []) ∧
    ((processGeneratedFile basename startTime inDisposed compiled0
        [s]).2.1 = if startTime ≤ s.compilationTime then 1 else 0) ∧
    copiedNames basename startTime [a] = [] ∧
    (processGeneratedFile basename startTime inDisposed compiled0
      [sf]).2.1 = 1 ∧
    (processGeneratedFile basename startTime inDisposed compiled0
      [sf]).1 = true := by
  refine ⟨?_, ?_, ?_, ?_, ?_⟩
  · by_cases h : startTime < b.copyTime <;> simp [copiedNames, h]
  · rw [processGeneratedFile_count]
    by_cases h : startTime ≤ s.compilationTime <;> simp [h]
  · simp [copiedNames, ha]
  · rw [processGeneratedFile_count]
    simp [hsf]
  · rw [processGeneratedFile_changed]
    simp [hsf]

/-- Witness for C8 at the boundary inputs: an asset copied at exactly the
pass start is not copied; a source file compiled at exactly the pass start
counts as compiled and marks the bundle changed. -/
theorem c8_witness :
    (copiedNames (fun p => p) 50 [{ path := "new.png", copyTime := 80 }] =
      if (50 : Int) < 80 then ["new.png"] else []) ∧
    ((processGeneratedFile (fun p => p) 50 false []
        [{ path := "old.coffee", compilationTime := 10 }]).2.1 =
      if (50 : Int) ≤ 10 then 1 else 0) ∧
    copiedNames (fun p => p) 50 [{ path := "img.png", copyTime := 50 }] = [] ∧
    (processGeneratedFile (fun p => p) 50 false []
      [{ path := "x.coffee", compilationTime := 50 }]).2.1 = 1 ∧
    (processGeneratedFile (fun p => p) 50 false []
      [{ path := "x.coffee", compilationTime := 50 }]).1 = true :=
  c8_theorem (fun p => p) 50 false [] { path := "img.png", copyTime := 50 }
    { path := "new.png", copyTime := 80 }
    { path := "x.coffee", compilationTime := 50 }
    { path := "old.coffee", compilationTime := 10 } rfl rfl

/-- Claim C9 (confirmed): the output of the summary generator is the
deterministic main portion — a function of the snapshot alone — followed
by `" in "` and the elapsed-time text; two calls on identical snapshots
differ only in that suffix. -/
theorem c9_theorem (basename : String → String) (diffText : Int → String)
    (firstNow secondNow startTime : Int) (allAssets : List Asset)
    (generatedFiles : List GeneratedFile) (disposedFiles : DisposedFiles) :
    ∃ main : String,
      generateCompilationLog basename diffText firstNow startTime allAssets
          generatedFiles disposedFiles =
        main ++ " in " ++ diffText (firstNow - startTime) ∧
      generateCompilationLog basename diffText secondNow startTime allAssets
          generatedFiles disposedFiles =
        main ++ " in " ++ diffText (secondNow - startTime) :=
  ⟨summaryHead basename startTime allAssets generatedFiles disposedFiles,
    rfl, rfl⟩

end Brunch
